import Mathlib

/-!
Shallow embedding of `apps/DeepFaceLive/backend/BackendBase.py` (DeepFaceLive):
the inter-process data plane built from `BackendConnectionData` (the Envelope),
`BackendConnection`, `BackendSignal`, and the host/worker profile-timing
side-channel.  Python objects become Lean structures; stateful methods become
explicit state-passing functions; Python exceptions become an explicit
`PyError` result; `None` becomes `Option`.  Components of the repository that
are not part of the given source tree (the `xlib` substrate: `MPWeakHeap`,
`MPSPSCMRRingData`, `FaceMark`, `AverageMeasurer`, `EventListener`) are
modelled from the specification, as marked on each definition.
-/

set_option autoImplicit false

/-- Byte strings are modelled as lists of byte values. -/
abbrev Bytes := List ℕ

/-- First-match association-list lookup, exactly the semantics a Python dict
`get` presents after our cons-shadowing model of dict assignment. -/
def alookup {κ β : Type} [DecidableEq κ] (k : κ) : List (κ × β) → Option β
  | [] => none
  | (k', v) :: l => if k' = k then some v else alookup k l

instance {ε α : Type} [DecidableEq ε] [DecidableEq α] : DecidableEq (Except ε α) :=
  fun a b =>
    match a, b with
    | .error e, .error e' =>
        if h : e = e' then .isTrue (by rw [h])
        else .isFalse (by intro hc; cases hc; exact h rfl)
    | .ok x, .ok y =>
        if h : x = y then .isTrue (by rw [h])
        else .isFalse (by intro hc; cases hc; exact h rfl)
    | .error _, .ok _ => .isFalse (by intro hc; cases hc)
    | .ok _, .error _ => .isFalse (by intro hc; cases hc)

/-- Python exceptions raised by the embedded code. -/
inductive PyError : Type where
  | attributeError (msg : String)
  | valueError (msg : String)
  deriving DecidableEq, Repr

/-- Modelled from the spec: `FaceMark` (`xlib.facemeta`), a landmark-annotation
record; its internals are irrelevant here, only its identity as the accepted
capability matters. -/
structure FaceMark : Type where
  payload : ℕ
  deriving DecidableEq, Repr

/-- A dynamically-typed Python value passed to `add_face_mark`: either an
instance of `FaceMark` or any other object. -/
inductive PyObj : Type where
  | faceMark (m : FaceMark)
  | other (tag : ℕ)
  deriving DecidableEq, Repr

/-- The Python `isinstance(v, FaceMark)` test. -/
def PyObj.isFaceMark : PyObj → Bool
  | .faceMark _ => true
  | .other _ => false

/-- Handle into a weak heap: offset of the slot and the epoch at which it was
issued (spec section 3, `HeapHandle`). -/
structure HeapHandle : Type where
  offset : ℕ
  epoch : ℕ
  deriving DecidableEq, Repr

/-- Modelled from the spec: `MPWeakHeap` (`xlib.mp`), the fixed-capacity
circular shared arena of spec section 4.1.  `pos` counts `add_data` calls;
a blob is stored at slot `pos % capacity` with epoch `pos / capacity`
(the epoch increments each time the circular allocator reuses the slot).
`slots` is an association list from slot offset to (epoch, bytes), newest
entry first, so a reused slot shadows its previous content.  Resolution is
epoch-checked (variant (a) of the spec's section 9 open question). -/
structure MPWeakHeap : Type where
  capacity : ℕ
  slots : List (ℕ × (ℕ × Bytes))
  pos : ℕ
  deriving DecidableEq, Repr

/-- Modelled from the spec: `add_data` bump-allocates at the circular write
position, overwriting unconditionally, and returns the issued handle. -/
def MPWeakHeap.add_data (h : MPWeakHeap) (data : Bytes) : MPWeakHeap × HeapHandle :=
  let off := h.pos % h.capacity
  let ep := h.pos / h.capacity
  ({ h with slots := (off, (ep, data)) :: h.slots, pos := h.pos + 1 }, ⟨off, ep⟩)

/-- Modelled from the spec: `get_data` returns `none` when nothing was ever
written at the handle's slot or when the slot's current epoch differs from the
handle's recorded epoch (staleness), otherwise the stored bytes. -/
def MPWeakHeap.get_data (h : MPWeakHeap) (hd : HeapHandle) : Option Bytes :=
  match alookup hd.offset h.slots with
  | none => none
  | some (ep, d) => if ep = hd.epoch then some d else none

/-- The shape/dtype metadata recorded by `set_image`: a numpy shape and an
element-type name. -/
structure ImageInfo : Type where
  shape : List ℕ
  dtype : String
  deriving DecidableEq, Repr

/-- A numpy array as the envelope code observes it: its raw bytes
(`image.data`), its `shape` and its `dtype`.  `np.ndarray(shape, dtype,
buffer)` builds exactly such a typed view over `buffer`. -/
structure NDArray : Type where
  data : Bytes
  shape : List ℕ
  dtype : String
  deriving DecidableEq, Repr

/-- `BackendConnectionData`, the Envelope: mirrors the instance attributes set
in `__init__` (BackendBase.py lines 21-36).  Dicts are association lists with
cons-shadowing assignment. -/
structure BackendConnectionData : Type where
  weak_heap : Option MPWeakHeap
  weak_heap_refs : List (String × HeapHandle)
  weak_heap_image_infos : List (String × ImageInfo)
  uid : ℕ
  is_frame_reemitted : Option Bool
  frame_name : Option String
  frame_count : Option ℤ
  frame_num : Option ℤ
  frame_fps : Option ℚ
  frame_timestamp : Option ℚ
  merged_frame_name : Option String
  face_mark_list : List PyObj
  deriving DecidableEq, Repr

/-- `BackendConnectionData.__init__(uid)`. -/
def BackendConnectionData.init (uid : ℕ) : BackendConnectionData :=
  { weak_heap := none
    weak_heap_refs := []
    weak_heap_image_infos := []
    uid := uid
    is_frame_reemitted := none
    frame_name := none
    frame_count := none
    frame_num := none
    frame_fps := none
    frame_timestamp := none
    merged_frame_name := none
    face_mark_list := [] }

/-- `BackendConnectionData.__getstate__`: the state pickle serializes — a copy
of the attribute dict with `_weak_heap` replaced by `None`
(BackendBase.py lines 38-41). -/
def BackendConnectionData.getstate (bcd : BackendConnectionData) : BackendConnectionData :=
  { bcd with weak_heap := none }

/-- `assign_weak_heap` (BackendBase.py line 43-44). -/
def BackendConnectionData.assign_weak_heap (bcd : BackendConnectionData)
    (h : MPWeakHeap) : BackendConnectionData :=
  { bcd with weak_heap := some h }

/-- `set_file(name, data)` (BackendBase.py lines 46-47): stores the blob via
the bound heap and records the returned handle under `name`.  When no heap is
bound, Python's `self._weak_heap.add_data(data)` raises `AttributeError` on
`None`; the envelope is returned unchanged alongside the error. -/
def BackendConnectionData.set_file (bcd : BackendConnectionData) (name : String)
    (data : Bytes) : Except PyError Unit × BackendConnectionData :=
  match bcd.weak_heap with
  | none =>
      (.error (.attributeError "NoneType object has no attribute add_data"), bcd)
  | some h =>
      let r := h.add_data data
      (.ok (), { bcd with weak_heap := some r.1,
                          weak_heap_refs := (name, r.2) :: bcd.weak_heap_refs })

/-- `get_file(name)` (BackendBase.py lines 49-53): `None` when no handle is
recorded under `name`; otherwise resolves the handle through the bound heap,
raising `AttributeError` when the heap is unbound. -/
def BackendConnectionData.get_file (bcd : BackendConnectionData) (name : String) :
    Except PyError (Option Bytes) :=
  match alookup name bcd.weak_heap_refs with
  | none => .ok none
  | some ref =>
      match bcd.weak_heap with
      | none => .error (.attributeError "NoneType object has no attribute get_data")
      | some h => .ok (h.get_data ref)

/-- `set_image(name, image)` (BackendBase.py lines 55-64): stores the pixel
bytes through `set_file` under the same name, then records the shape/dtype
metadata. -/
def BackendConnectionData.set_image (bcd : BackendConnectionData) (name : String)
    (image : NDArray) : Except PyError Unit × BackendConnectionData :=
  let r := bcd.set_file name image.data
  match r.1 with
  | .error e => (.error e, r.2)
  | .ok () =>
      (.ok (), { r.2 with
        weak_heap_image_infos := (name, ⟨image.shape, image.dtype⟩) :: r.2.weak_heap_image_infos })

/-- `get_image(name)` (BackendBase.py lines 66-75): `None` for a `None` name;
otherwise looks up the metadata, fetches the bytes through `get_file`
(propagating its unbound-heap error), and reconstructs the typed view when
both are present. -/
def BackendConnectionData.get_image (bcd : BackendConnectionData)
    (name : Option String) : Except PyError (Option NDArray) :=
  match name with
  | none => .ok none
  | some n =>
      let image_info := alookup n bcd.weak_heap_image_infos
      match bcd.get_file n with
      | .error e => .error e
      | .ok buffer =>
          match image_info, buffer with
          | some info, some buf => .ok (some ⟨buf, info.shape, info.dtype⟩)
          | _, _ => .ok none

/-- `add_face_mark(face_mark)` (BackendBase.py lines 98-101): raises
`ValueError` for anything that is not a `FaceMark` instance (the envelope is
returned as it was at the raise), otherwise appends to the list. -/
def BackendConnectionData.add_face_mark (bcd : BackendConnectionData)
    (face_mark : PyObj) : Except PyError Unit × BackendConnectionData :=
  if face_mark.isFaceMark then
    (.ok (), { bcd with face_mark_list := bcd.face_mark_list ++ [face_mark] })
  else
    (.error (.valueError "face_mark must be an instance of FaceMark"), bcd)

/-- Modelled from the spec: `MPSPSCMRRingData` (`xlib.mp`), the shared ring of
spec section 4.2.  Records are kept keyed by their absolute sequence number
(`write_id` at the moment of the write); `table_size`, `heap_size_mb` and
`multi_producer` are the construction-time configuration.  The records are the
pickled envelopes; pickling is modelled by storing the `__getstate__` value,
so a slot holds the envelope value that unpickling would reproduce. -/
structure MPSPSCMRRingData : Type where
  table_size : ℕ
  heap_size_mb : ℕ
  multi_producer : Bool
  write_id : ℕ
  read_id : ℕ
  records : List (ℕ × BackendConnectionData)
  deriving DecidableEq, Repr

/-- Modelled from the spec: ring `write` appends the record at the next slot,
assigns it the next `write_id` and advances the shared write cursor; no
backpressure — a full table overwrites the oldest slot unconditionally. -/
def MPSPSCMRRingData.write (rd : MPSPSCMRRingData) (b : BackendConnectionData) :
    MPSPSCMRRingData :=
  { rd with records := (rd.write_id, b) :: rd.records, write_id := rd.write_id + 1 }

/-- Modelled from the spec: the non-blocking poll of ring `read` for the
calling reader's own cursor — the next unread record if available, skipping
records already overwritten (more than `table_size` behind the writer). -/
def MPSPSCMRRingData.read (rd : MPSPSCMRRingData) :
    Option BackendConnectionData × MPSPSCMRRingData :=
  if rd.read_id < rd.write_id then
    let i := max rd.read_id (rd.write_id - rd.table_size)
    (alookup i rd.records, { rd with read_id := i + 1 })
  else
    (none, rd)

/-- Modelled from the spec: `get_write_id` exposes the monotonic write
counter. -/
def MPSPSCMRRingData.get_write_id (rd : MPSPSCMRRingData) : ℕ := rd.write_id

/-- Modelled from the spec: the reader's `get_read_id` exposes that reader's
own cursor. -/
def MPSPSCMRRingData.get_read_id (rd : MPSPSCMRRingData) : ℕ := rd.read_id

/-- `BackendConnection`: couples the ring with envelope serialization. -/
structure BackendConnection : Type where
  rd : MPSPSCMRRingData
  deriving DecidableEq, Repr

/-- `BackendConnection.__init__(multi_producer=False)` (BackendBase.py lines
105-106): constructs the ring with `table_size=8192`, `heap_size_mb=8` and the
given `multi_producer` flag; counters start at zero and the table empty. -/
def BackendConnection.init (multi_producer : Bool) : BackendConnection :=
  { rd := { table_size := 8192
            heap_size_mb := 8
            multi_producer := multi_producer
            write_id := 0
            read_id := 0
            records := [] } }

/-- `BackendConnection.write(bcd)` (BackendBase.py lines 108-109): pickles the
envelope — i.e. serializes its `__getstate__` value — and hands it to the
ring's write. -/
def BackendConnection.write (c : BackendConnection) (bcd : BackendConnectionData) :
    BackendConnection :=
  { c with rd := c.rd.write bcd.getstate }

/-- `BackendConnection.read` (BackendBase.py lines 111-115), as the
non-blocking poll: ring read plus unpickling (which reproduces the stored
`__getstate__` value). -/
def BackendConnection.read (c : BackendConnection) :
    Option BackendConnectionData × BackendConnection :=
  let r := c.rd.read
  (r.1, { c with rd := r.2 })

/-- `BackendConnection.is_full_read(buffer_size=0)` (BackendBase.py lines
132-136): `self._rd.get_read_id() >= (self._rd.get_write_id() - buffer_size)`
in exact Python integer arithmetic. -/
def BackendConnection.is_full_read (c : BackendConnection) (buffer_size : ℕ) : Bool :=
  decide ((c.rd.get_read_id : ℤ) ≥ (c.rd.get_write_id : ℤ) - (buffer_size : ℤ))

/-- `BackendSignal` (BackendBase.py lines 139-150): a `multiprocessing.Event`
flag. -/
structure BackendSignal : Type where
  ev : Bool
  deriving DecidableEq, Repr

/-- `BackendSignal.send`: sets the event flag. -/
def BackendSignal.send (s : BackendSignal) : BackendSignal :=
  { s with ev := true }

/-- `BackendSignal.recv`: reads the flag, clears it if it was set, and returns
what it had been. -/
def BackendSignal.recv (s : BackendSignal) : Bool × BackendSignal :=
  let is_set := s.ev
  if is_set then (is_set, { s with ev := false }) else (is_set, s)

/-- `n` consecutive `send()` calls. -/
def BackendSignal.sendN : ℕ → BackendSignal → BackendSignal
  | 0, s => s
  | n + 1, s => BackendSignal.sendN n s.send

/-- The suffix of `l` made of its last (at most) `n` elements. -/
def lastN {α : Type} (n : ℕ) (l : List α) : List α :=
  l.drop (l.length - n)

/-- Arithmetic mean of a list of rationals. -/
def listAvg (l : List ℚ) : ℚ := l.sum / l.length

/-- Modelled from the spec: `AverageMeasurer` (`xlib.time`) with a window of
`samples` entries — `start` records the start instant, `stop` takes the
current instant, appends the elapsed duration to the rolling window of the
last `samples_max` durations, and returns the window's current average. -/
structure AverageMeasurer : Type where
  samples_max : ℕ
  samples : List ℚ
  start_time : ℚ
  deriving DecidableEq, Repr

/-- Modelled from the spec: `AverageMeasurer.start` at instant `t`. -/
def AverageMeasurer.start (m : AverageMeasurer) (t : ℚ) : AverageMeasurer :=
  { m with start_time := t }

/-- Modelled from the spec: `AverageMeasurer.stop` at instant `t` — the
measured duration enters the rolling window and the new rolling average is
returned. -/
def AverageMeasurer.stop (m : AverageMeasurer) (t : ℚ) : ℚ × AverageMeasurer :=
  let samples := lastN m.samples_max (m.samples ++ [t - m.start_time])
  (listAvg samples, { m with samples := samples })

/-- `BackendWorker` state relevant to the timing side-channel: the profile
timing measurer built in `__init__` (BackendBase.py lines 187-189). -/
structure BackendWorker : Type where
  profile_timing_measurer : AverageMeasurer
  deriving DecidableEq, Repr

/-- `BackendWorker.__init__`: `AverageMeasurer(samples=120)`. -/
def BackendWorker.init : BackendWorker :=
  { profile_timing_measurer := { samples_max := 120, samples := [], start_time := 0 } }

/-- `BackendWorker.start_profile_timing` at instant `t` (BackendBase.py lines
191-192). -/
def BackendWorker.start_profile_timing (w : BackendWorker) (t : ℚ) : BackendWorker :=
  { w with profile_timing_measurer := w.profile_timing_measurer.start t }

/-- `BackendWorker.stop_profile_timing` at instant `t` (BackendBase.py lines
194-195): sends exactly one message, named `_profile_timing`, carrying the
measurer's `stop()` value. -/
def BackendWorker.stop_profile_timing (w : BackendWorker) (t : ℚ) :
    (String × ℚ) × BackendWorker :=
  let r := w.profile_timing_measurer.stop t
  (("_profile_timing", r.1), { w with profile_timing_measurer := r.2 })

/-- A run of bracketed measurements: for each pair `(t0, t1)` the worker calls
`start_profile_timing` at `t0` and `stop_profile_timing` at `t1`, discarding
the emitted messages. -/
def BackendWorker.runProfile (w : BackendWorker) : List (ℚ × ℚ) → BackendWorker
  | [] => w
  | p :: ps => BackendWorker.runProfile ((w.start_profile_timing p.1).stop_profile_timing p.2).2 ps

/-- `BackendHost` state relevant to the timing side-channel: the listeners
registered on the `EventListener` (modelled from the spec as the list of
listener identifiers in registration order). -/
structure BackendHost : Type where
  profile_timing_listeners : List ℕ
  deriving DecidableEq, Repr

/-- `BackendHost.call_on_profile_timing` (BackendBase.py lines 182-183):
registration is append-only. -/
def BackendHost.call_on_profile_timing (h : BackendHost) (listener : ℕ) : BackendHost :=
  { h with profile_timing_listeners := h.profile_timing_listeners ++ [listener] }

/-- `BackendHost._on_profile_timing_msg` (BackendBase.py lines 179-180): the
`EventListener.call` fan-out, modelled from the spec — every registered
listener is invoked, in registration order, with the received timing value;
the result is the list of invocations performed. -/
def BackendHost.on_profile_timing_msg (h : BackendHost) (timing : ℚ) : List (ℕ × ℚ) :=
  h.profile_timing_listeners.map (fun l => (l, timing))

/-- The measured durations of a run of bracketed measurements. -/
def durationsOf (ps : List (ℚ × ℚ)) : List ℚ :=
  ps.map (fun p => p.2 - p.1)

/-- Any positive number of sends leaves the flag set. -/
lemma BackendSignal.sendN_succ_eq (n : ℕ) (s : BackendSignal) :
    BackendSignal.sendN (n + 1) s = ⟨true⟩ := by
  induction n generalizing s with
  | zero => rfl
  | succ n ih => exact ih s.send

/-- Lemma C1: `is_full_read(buffer_size)` is true exactly when the reader's
counter has reached `write_id - buffer_size`, and false otherwise; the
quantification over `buffer_size` covers the boundary values `0` and the
table capacity `8192`. -/
theorem BackendConnection.is_full_read_iff (c : BackendConnection) (buffer_size : ℕ) :
    (c.is_full_read buffer_size = true ↔
      (c.rd.get_read_id : ℤ) ≥ (c.rd.get_write_id : ℤ) - (buffer_size : ℤ)) ∧
    (c.is_full_read buffer_size = false ↔
      (c.rd.get_read_id : ℤ) < (c.rd.get_write_id : ℤ) - (buffer_size : ℤ)) := by
  constructor
  · simp [BackendConnection.is_full_read]
  · simp only [BackendConnection.is_full_read, ge_iff_le, decide_eq_false_iff_not, not_le]

/-- Lemma C2: writing an envelope to a connection stores its `__getstate__`
value, in which the heap reference is the absent value while every other
field — the name-to-handle mapping included — is preserved. -/
theorem BackendConnection.write_excludes_heap (c : BackendConnection)
    (bcd : BackendConnectionData) :
    alookup c.rd.write_id (c.write bcd).rd.records = some bcd.getstate ∧
    bcd.getstate.weak_heap = none ∧
    bcd.getstate.weak_heap_refs = bcd.weak_heap_refs ∧
    bcd.getstate.weak_heap_image_infos = bcd.weak_heap_image_infos ∧
    bcd.getstate.uid = bcd.uid ∧
    bcd.getstate.is_frame_reemitted = bcd.is_frame_reemitted ∧
    bcd.getstate.frame_name = bcd.frame_name ∧
    bcd.getstate.frame_count = bcd.frame_count ∧
    bcd.getstate.frame_num = bcd.frame_num ∧
    bcd.getstate.frame_fps = bcd.frame_fps ∧
    bcd.getstate.frame_timestamp = bcd.frame_timestamp ∧
    bcd.getstate.merged_frame_name = bcd.merged_frame_name ∧
    bcd.getstate.face_mark_list = bcd.face_mark_list := by
  refine ⟨?_, rfl, rfl, rfl, rfl, rfl, rfl, rfl, rfl, rfl, rfl, rfl, rfl⟩
  simp [BackendConnection.write, MPSPSCMRRingData.write, alookup]

/-- Lemma C3: `add_face_mark` on a value that is not a `FaceMark` instance
fails synchronously with a `ValueError` and leaves the envelope — its
`face_mark_list` in particular — exactly as it was; on a `FaceMark` instance
it appends the value to the end of the list. -/
theorem BackendConnectionData.add_face_mark_spec (bcd : BackendConnectionData)
    (v : PyObj) :
    (v.isFaceMark = false →
      (bcd.add_face_mark v).1 =
        .error (.valueError "face_mark must be an instance of FaceMark") ∧
      (bcd.add_face_mark v).2 = bcd) ∧
    (v.isFaceMark = true →
      (bcd.add_face_mark v).1 = .ok () ∧
      (bcd.add_face_mark v).2.face_mark_list = bcd.face_mark_list ++ [v]) := by
  constructor <;> intro h <;>
    simp [BackendConnectionData.add_face_mark, h]

/-- Witness for C3 at a concrete non-conforming and a concrete conforming
value. -/
theorem BackendConnectionData.add_face_mark_spec_witness :
    (((BackendConnectionData.init 0).add_face_mark (.other 5)).1 =
        .error (.valueError "face_mark must be an instance of FaceMark") ∧
      ((BackendConnectionData.init 0).add_face_mark (.other 5)).2 =
        BackendConnectionData.init 0) ∧
    (((BackendConnectionData.init 0).add_face_mark (.faceMark ⟨7⟩)).1 = .ok () ∧
      ((BackendConnectionData.init 0).add_face_mark (.faceMark ⟨7⟩)).2.face_mark_list =
        (BackendConnectionData.init 0).face_mark_list ++ [.faceMark ⟨7⟩]) :=
  ⟨(BackendConnectionData.add_face_mark_spec (BackendConnectionData.init 0)
      (.other 5)).1 rfl,
   (BackendConnectionData.add_face_mark_spec (BackendConnectionData.init 0)
      (.faceMark ⟨7⟩)).2 rfl⟩

/-- Lemma C7: any `N ≥ 1` consecutive sends followed by one `recv` yield
exactly one `true`, and a further `recv` with no intervening send yields
`false`. -/
theorem BackendSignal.send_recv_spec (s : BackendSignal) (N : ℕ) (hN : 1 ≤ N) :
    (BackendSignal.sendN N s).recv.1 = true ∧
    (BackendSignal.sendN N s).recv.2.recv.1 = false := by
  obtain ⟨n, rfl⟩ : ∃ n, N = n + 1 := ⟨N - 1, by omega⟩
  rw [BackendSignal.sendN_succ_eq]
  exact ⟨rfl, rfl⟩

/-- Witness for C7 at `N = 3` from a cleared flag. -/
theorem BackendSignal.send_recv_spec_witness :
    1 ≤ 3 ∧
    ((BackendSignal.sendN 3 ⟨false⟩).recv.1 = true ∧
     (BackendSignal.sendN 3 ⟨false⟩).recv.2.recv.1 = false) :=
  ⟨by decide, BackendSignal.send_recv_spec ⟨false⟩ 3 (by decide)⟩

/-- Lemma C8: a connection is constructed with table capacity 8192,
heap capacity 8 MB and the supplied `multi_producer` flag, and neither
writing nor reading changes any of the three. -/
theorem BackendConnection.config_fixed (mp : Bool) (c : BackendConnection)
    (bcd : BackendConnectionData) :
    ((BackendConnection.init mp).rd.table_size = 8192 ∧
     (BackendConnection.init mp).rd.heap_size_mb = 8 ∧
     (BackendConnection.init mp).rd.multi_producer = mp) ∧
    ((c.write bcd).rd.table_size = c.rd.table_size ∧
     (c.write bcd).rd.heap_size_mb = c.rd.heap_size_mb ∧
     (c.write bcd).rd.multi_producer = c.rd.multi_producer) ∧
    (c.read.2.rd.table_size = c.rd.table_size ∧
     c.read.2.rd.heap_size_mb = c.rd.heap_size_mb ∧
     c.read.2.rd.multi_producer = c.rd.multi_producer) := by
  refine ⟨⟨rfl, rfl, rfl⟩, ⟨rfl, rfl, rfl⟩, ?_⟩
  simp only [BackendConnection.read, MPSPSCMRRingData.read]
  split <;> simp

/-- Lemma C4: storing an image and reading it straight back (so the backing
heap slot has not been overwritten in between) on an envelope with a bound
heap returns pixel bytes, shape and element type identical to those
stored. -/
theorem BackendConnectionData.set_get_image_roundtrip (bcd : BackendConnectionData)
    (h : MPWeakHeap) (hheap : bcd.weak_heap = some h) (name : String)
    (image : NDArray) :
    (bcd.set_image name image).2.get_image (some name) =
      .ok (some ⟨image.data, image.shape, image.dtype⟩) := by
  simp [BackendConnectionData.set_image, BackendConnectionData.set_file, hheap,
    BackendConnectionData.get_image, BackendConnectionData.get_file,
    MPWeakHeap.add_data, MPWeakHeap.get_data, alookup]

/-- Witness for C4 on a concrete envelope, heap and image. -/
theorem BackendConnectionData.set_get_image_roundtrip_witness :
    ((BackendConnectionData.init 1).assign_weak_heap ⟨4, [], 0⟩).weak_heap =
      some ⟨4, [], 0⟩ ∧
    (((BackendConnectionData.init 1).assign_weak_heap ⟨4, [], 0⟩).set_image "img"
        ⟨[1, 2, 3], [3], "uint8"⟩).2.get_image (some "img") =
      .ok (some ⟨[1, 2, 3], [3], "uint8"⟩) :=
  ⟨rfl, BackendConnectionData.set_get_image_roundtrip
    ((BackendConnectionData.init 1).assign_weak_heap ⟨4, [], 0⟩) ⟨4, [], 0⟩ rfl
    "img" ⟨[1, 2, 3], [3], "uint8"⟩⟩

/-- Lemma C5: on an envelope obtained by deserialization (its state is some
envelope's `__getstate__` value, so the heap reference is absent), resolving
any name whose handle is recorded fails with the explicit not-bound error —
for `get_file` and `get_image` alike — and in particular never yields
resolved bytes. -/
theorem BackendConnectionData.unbound_heap_fails (bcd : BackendConnectionData)
    (name : String) (ref : HeapHandle)
    (href : alookup name bcd.getstate.weak_heap_refs = some ref) :
    bcd.getstate.get_file name =
      .error (.attributeError "NoneType object has no attribute get_data") ∧
    bcd.getstate.get_image (some name) =
      .error (.attributeError "NoneType object has no attribute get_data") ∧
    (∀ b : Bytes, bcd.getstate.get_file name ≠ .ok (some b)) := by
  have href2 : alookup name bcd.weak_heap_refs = some ref := href
  have hfile : bcd.getstate.get_file name =
      .error (.attributeError "NoneType object has no attribute get_data") := by
    simp [BackendConnectionData.get_file, href2, BackendConnectionData.getstate]
  refine ⟨hfile, ?_, ?_⟩
  · simp [BackendConnectionData.get_image, hfile]
  · intro b hcontra
    rw [hfile] at hcontra
    exact Except.noConfusion hcontra

/-- Witness for C5: a concrete envelope that stored a blob under a bound heap
and was then serialized. -/
theorem BackendConnectionData.unbound_heap_fails_witness :
    alookup "f"
      ((((BackendConnectionData.init 2).assign_weak_heap ⟨4, [], 0⟩).set_file "f"
          [9, 8]).2.getstate).weak_heap_refs = some ⟨0, 0⟩ ∧
    ((((BackendConnectionData.init 2).assign_weak_heap ⟨4, [], 0⟩).set_file "f"
        [9, 8]).2.getstate).get_file "f" =
      .error (.attributeError "NoneType object has no attribute get_data") ∧
    ((((BackendConnectionData.init 2).assign_weak_heap ⟨4, [], 0⟩).set_file "f"
        [9, 8]).2.getstate).get_image (some "f") =
      .error (.attributeError "NoneType object has no attribute get_data") :=
  ⟨by decide,
   (BackendConnectionData.unbound_heap_fails
      (((BackendConnectionData.init 2).assign_weak_heap ⟨4, [], 0⟩).set_file "f"
          [9, 8]).2 "f" ⟨0, 0⟩ (by decide)).1,
   (BackendConnectionData.unbound_heap_fails
      (((BackendConnectionData.init 2).assign_weak_heap ⟨4, [], 0⟩).set_file "f"
          [9, 8]).2 "f" ⟨0, 0⟩ (by decide)).2.1⟩

/-- Counterexample to C6 as stated: an envelope with a file handle recorded
under a name, no image metadata for that name, and an unbound heap (the state
every deserialized envelope is in); `get_image` on that name raises the
not-bound `AttributeError` instead of returning the absent value. -/
theorem BackendConnectionData.get_image_missing_info_counterexample :
    alookup "a"
      ((((BackendConnectionData.init 3).assign_weak_heap ⟨4, [], 0⟩).set_file "a"
          [1]).2.getstate).weak_heap_image_infos = none ∧
    ((((BackendConnectionData.init 3).assign_weak_heap ⟨4, [], 0⟩).set_file "a"
        [1]).2.getstate).get_image (some "a") ≠ .ok none := by
  decide

/-- Lemma C6 (amended): `get_file` on a name never set returns the absent
value, `get_image` of the null name returns the absent value, and `get_image`
of a name with no recorded image metadata returns the absent value provided
the call does not hit the unbound-heap error (the heap is bound, or no file
handle is recorded under the name).  Absent is `Option.none`, distinct from
any successfully retrieved empty data. -/
theorem BackendConnectionData.get_absent_spec (bcd : BackendConnectionData)
    (name : String) :
    (alookup name bcd.weak_heap_refs = none → bcd.get_file name = .ok none) ∧
    bcd.get_image none = .ok none ∧
    (alookup name bcd.weak_heap_image_infos = none →
      bcd.weak_heap ≠ none ∨ alookup name bcd.weak_heap_refs = none →
      bcd.get_image (some name) = .ok none) := by
  refine ⟨?_, rfl, ?_⟩
  · intro href
    simp [BackendConnectionData.get_file, href]
  · intro hinfo hok
    simp only [BackendConnectionData.get_image, hinfo]
    match hr : alookup name bcd.weak_heap_refs with
    | none => simp [BackendConnectionData.get_file, hr]
    | some ref =>
      match hw : bcd.weak_heap with
      | none =>
        rcases hok with hok | hok
        · exact absurd hw hok
        · rw [hok] at hr; exact Option.noConfusion hr
      | some hp => simp [BackendConnectionData.get_file, hr, hw]

/-- Witness for the amended C6 on a fresh envelope and an unset name. -/
theorem BackendConnectionData.get_absent_spec_witness :
    alookup "z" (BackendConnectionData.init 4).weak_heap_refs = none ∧
    (BackendConnectionData.init 4).get_file "z" = .ok none ∧
    (BackendConnectionData.init 4).get_image none = .ok none ∧
    (BackendConnectionData.init 4).get_image (some "z") = .ok none :=
  ⟨rfl,
   (BackendConnectionData.get_absent_spec (BackendConnectionData.init 4) "z").1 rfl,
   (BackendConnectionData.get_absent_spec (BackendConnectionData.init 4) "z").2.1,
   (BackendConnectionData.get_absent_spec (BackendConnectionData.init 4) "z").2.2 rfl
     (Or.inr rfl)⟩

/-- Lemma C10: `set_file` and `set_image` share one name namespace.  With a
bound heap, `set_image` stores the pixel bytes under the file entry of the
same name; a later `set_file` under that name replaces the retrievable bytes
while the image shape/element-type metadata stays as recorded, so a subsequent
`get_image` reinterprets the new bytes under the stale metadata rather than
returning the absent value; entries under every other name are untouched by
either call. -/
theorem BackendConnectionData.set_file_set_image_shared_namespace
    (bcd : BackendConnectionData) (h : MPWeakHeap) (hheap : bcd.weak_heap = some h)
    (name : String) (image : NDArray) (data2 : Bytes)
    (env1 env2 : BackendConnectionData)
    (henv1 : env1 = (bcd.set_image name image).2)
    (henv2 : env2 = (env1.set_file name data2).2) :
    env1.get_file name = .ok (some image.data) ∧
    alookup name env1.weak_heap_image_infos = some ⟨image.shape, image.dtype⟩ ∧
    env2.get_file name = .ok (some data2) ∧
    alookup name env2.weak_heap_image_infos = alookup name env1.weak_heap_image_infos ∧
    env2.get_image (some name) = .ok (some ⟨data2, image.shape, image.dtype⟩) ∧
    (∀ n, n ≠ name →
      alookup n env1.weak_heap_refs = alookup n bcd.weak_heap_refs ∧
      alookup n env1.weak_heap_image_infos = alookup n bcd.weak_heap_image_infos ∧
      alookup n env2.weak_heap_refs = alookup n bcd.weak_heap_refs ∧
      alookup n env2.weak_heap_image_infos = alookup n bcd.weak_heap_image_infos) := by
  subst henv2
  subst henv1
  refine ⟨?_, ?_, ?_, ?_, ?_, ?_⟩
  · simp [BackendConnectionData.set_image, BackendConnectionData.set_file, hheap,
      BackendConnectionData.get_file, MPWeakHeap.add_data, MPWeakHeap.get_data, alookup]
  · simp [BackendConnectionData.set_image, BackendConnectionData.set_file, hheap, alookup]
  · simp [BackendConnectionData.set_image, BackendConnectionData.set_file, hheap,
      BackendConnectionData.get_file, MPWeakHeap.add_data, MPWeakHeap.get_data, alookup]
  · simp [BackendConnectionData.set_image, BackendConnectionData.set_file, hheap, alookup]
  · simp [BackendConnectionData.set_image, BackendConnectionData.set_file, hheap,
      BackendConnectionData.get_image, BackendConnectionData.get_file,
      MPWeakHeap.add_data, MPWeakHeap.get_data, alookup]
  · intro n hn
    have hn' : ¬(name = n) := fun e => hn e.symm
    refine ⟨?_, ?_, ?_, ?_⟩ <;>
      simp [BackendConnectionData.set_image, BackendConnectionData.set_file, hheap,
        alookup, hn']

/-- Witness for C10 on a concrete envelope, image and replacement blob. -/
theorem BackendConnectionData.set_file_set_image_shared_namespace_witness :
    ((((BackendConnectionData.init 5).assign_weak_heap ⟨4, [], 0⟩).set_image "im"
          ⟨[1, 2], [2], "uint8"⟩).2.set_file "im" [7, 7, 7]).2.get_image (some "im") =
      .ok (some ⟨[7, 7, 7], [2], "uint8"⟩) ∧
    alookup "im"
      ((((BackendConnectionData.init 5).assign_weak_heap ⟨4, [], 0⟩).set_image "im"
          ⟨[1, 2], [2], "uint8"⟩).2.set_file "im" [7, 7, 7]).2.weak_heap_image_infos =
      some ⟨[2], "uint8"⟩ ∧
    alookup "other"
      ((((BackendConnectionData.init 5).assign_weak_heap ⟨4, [], 0⟩).set_image "im"
          ⟨[1, 2], [2], "uint8"⟩).2.set_file "im" [7, 7, 7]).2.weak_heap_refs =
      alookup "other"
        ((BackendConnectionData.init 5).assign_weak_heap ⟨4, [], 0⟩).weak_heap_refs := by
  have T := BackendConnectionData.set_file_set_image_shared_namespace
    ((BackendConnectionData.init 5).assign_weak_heap ⟨4, [], 0⟩) ⟨4, [], 0⟩ rfl
    "im" ⟨[1, 2], [2], "uint8"⟩ [7, 7, 7]
    (((BackendConnectionData.init 5).assign_weak_heap ⟨4, [], 0⟩).set_image "im"
        ⟨[1, 2], [2], "uint8"⟩).2
    ((((BackendConnectionData.init 5).assign_weak_heap ⟨4, [], 0⟩).set_image "im"
        ⟨[1, 2], [2], "uint8"⟩).2.set_file "im" [7, 7, 7]).2
    rfl rfl
  exact ⟨T.2.2.2.2.1, T.2.2.2.1.trans T.2.1,
    (T.2.2.2.2.2 "other" (by decide)).2.2.1⟩

/-- Keeping the last `n` elements, appending one and keeping the last `n`
again is the same as keeping the last `n` of the appended list. -/
lemma lastN_append_single {α : Type} (n : ℕ) (l : List α) (d : α) :
    lastN n (lastN n l ++ [d]) = lastN n (l ++ [d]) := by
  by_cases hmn : l.length ≤ n
  · unfold lastN
    rw [Nat.sub_eq_zero_of_le hmn, List.drop_zero]
  · push_neg at hmn
    unfold lastN
    have hlen : (l.drop (l.length - n)).length = n := by
      rw [List.length_drop]; omega
    rw [List.length_append, List.length_append, hlen]
    rcases Nat.eq_zero_or_pos n with hn0 | hn0
    · subst hn0
      have e1 : l.length - 0 = l.length := Nat.sub_zero _
      rw [e1, List.drop_length, List.nil_append]
      have e2 : (l ++ [d]).length ≤ l.length + [d].length - 0 := by
        simp
      rw [List.drop_eq_nil_of_le e2]
      simp
    · have h1 : n + [d].length - n = 1 := by simp
      have h2 : l.length + [d].length - n ≤ l.length := by simp; omega
      rw [h1, List.drop_append_of_le_length (by omega : 1 ≤ (l.drop (l.length - n)).length),
        List.drop_drop, List.drop_append_of_le_length h2]
      have h3 : l.length - n + 1 = l.length + [d].length - n := by simp; omega
      rw [h3]

/-- After any run of bracketed measurements, a worker whose window currently
holds the last 120 of `l` holds the last 120 of `l` extended by the run's
durations, and the window bound stays 120. -/
lemma BackendWorker.runProfile_measurer (ps : List (ℚ × ℚ)) :
    ∀ (w : BackendWorker) (l : List ℚ),
      w.profile_timing_measurer.samples_max = 120 →
      w.profile_timing_measurer.samples = lastN 120 l →
      (w.runProfile ps).profile_timing_measurer.samples_max = 120 ∧
      (w.runProfile ps).profile_timing_measurer.samples =
        lastN 120 (l ++ durationsOf ps) := by
  induction ps with
  | nil =>
    intro w l hmax hs
    simpa [BackendWorker.runProfile, durationsOf] using ⟨hmax, hs⟩
  | cons p ps ih =>
    intro w l hmax hs
    simp only [BackendWorker.runProfile]
    have hstep1 :
        (((w.start_profile_timing p.1).stop_profile_timing p.2).2).profile_timing_measurer.samples_max
          = 120 := by
      simp [BackendWorker.start_profile_timing, BackendWorker.stop_profile_timing,
        AverageMeasurer.start, AverageMeasurer.stop, hmax]
    have hstep2 :
        (((w.start_profile_timing p.1).stop_profile_timing p.2).2).profile_timing_measurer.samples
          = lastN 120 (l ++ [p.2 - p.1]) := by
      simp [BackendWorker.start_profile_timing, BackendWorker.stop_profile_timing,
        AverageMeasurer.start, AverageMeasurer.stop, hmax, hs]
      exact lastN_append_single 120 l (p.2 - p.1)
    have hrec := ih _ (l ++ [p.2 - p.1]) hstep1 hstep2
    have hds : (l ++ [p.2 - p.1]) ++ durationsOf ps = l ++ durationsOf (p :: ps) := by
      simp [durationsOf]
    rw [hds] at hrec
    exact hrec

/-- Lemma C9: after any run of bracketed measurements from a fresh worker,
one more `start_profile_timing`/`stop_profile_timing` bracket emits exactly
one message, named `_profile_timing`, whose payload is the rolling average of
the last (at most) 120 measured durations; a host receiving that payload
invokes every registered listener in registration order with it. -/
theorem BackendWorker.profile_timing_spec (ps : List (ℚ × ℚ)) (t0 t1 : ℚ)
    (host : BackendHost) :
    (((BackendWorker.init.runProfile ps).start_profile_timing t0).stop_profile_timing t1).1 =
      ("_profile_timing", listAvg (lastN 120 (durationsOf ps ++ [t1 - t0]))) ∧
    host.on_profile_timing_msg
        (((BackendWorker.init.runProfile ps).start_profile_timing t0).stop_profile_timing t1).1.2 =
      host.profile_timing_listeners.map
        (fun l => (l,
          (((BackendWorker.init.runProfile ps).start_profile_timing t0).stop_profile_timing t1).1.2)) := by
  have base := BackendWorker.runProfile_measurer ps BackendWorker.init [] rfl rfl
  constructor
  · simp only [BackendWorker.start_profile_timing, BackendWorker.stop_profile_timing,
      AverageMeasurer.start, AverageMeasurer.stop]
    rw [base.1, base.2]
    simp only [List.nil_append]
    rw [lastN_append_single]
  · rfl
